import Mathlib

/-!
Verification of the advent-calendar coupon application.

The development shallowly embeds the application's client-side state logic:
JavaScript values produced by JSON.parse, the localStorage-backed persistent
store (keys redeemedCoupons, redeemedDates, advent-auth), the page component's
redemption handlers, the DataManager backup codec (validate/export/import/reset),
the Door status presentation, and the AuthModal date gate.  Machine numbers are
modelled as rationals, stored strings as their parse outcome (a JSON value or a
parse failure), and DOM/persistence side effects as explicit state passing.
-/

namespace Calendary

/-- A JavaScript runtime value as produced by JSON.parse, plus `undefined` for the
JavaScript `undefined` returned by a missing property access.  Numbers are
modelled as rationals. -/
inductive Json where
  | null : Json
  | bool : Bool → Json
  | num : ℚ → Json
  | str : String → Json
  | arr : List Json → Json
  | obj : List (String × Json) → Json
  | undefined : Json

/-- JavaScript `typeof`.  Note `typeof null === "object"`. -/
def typeOf : Json → String
  | .null => "object"
  | .bool _ => "boolean"
  | .num _ => "number"
  | .str _ => "string"
  | .arr _ => "object"
  | .obj _ => "object"
  | .undefined => "undefined"

/-- JavaScript truthiness of a value. -/
def truthy : Json → Bool
  | .null => false
  | .bool b => b
  | .num q => decide (q ≠ 0)
  | .str s => decide (s ≠ "")
  | .arr _ => true
  | .obj _ => true
  | .undefined => false

/-- `Array.isArray`. -/
def isArray : Json → Bool
  | .arr _ => true
  | _ => false

/-- The element list of an array value (only consulted after `isArray`). -/
def asArray : Json → List Json
  | .arr xs => xs
  | _ => []

/-- Property access `v[key]`: a present object field, otherwise `undefined`.
(Numeric indices and built-in properties are never accessed by the embedded
code paths, so they are not modelled.) -/
def getField : Json → String → Json
  | .obj kvs, k =>
    match kvs.find? (fun p => p.1 == k) with
    | some p => p.2
    | none => .undefined
  | _, _ => .undefined

/-- SameValueZero equality, as used by `Set` membership and `Array.includes`.
Primitives compare by value; objects and arrays compare by reference, and two
separately parsed objects are distinct references, so they never compare
equal here. -/
def sameValueZero : Json → Json → Bool
  | .null, .null => true
  | .undefined, .undefined => true
  | .bool a, .bool b => a == b
  | .num a, .num b => a == b
  | .str a, .str b => a == b
  | _, _ => false

/-- `Array.prototype.includes`. -/
def jsIncludes (l : List Json) (v : Json) : Bool :=
  l.any (fun x => sameValueZero x v)

/-- `Set.prototype.add`: append the value unless an equal one is present
(insertion order preserved). -/
def jsSetAdd (s : List Json) (v : Json) : List Json :=
  if s.any (fun x => sameValueZero x v) then s else s ++ [v]

/-- `new Set(iterable)` over the elements of a parsed array. -/
def jsSetFromList (l : List Json) : List Json :=
  l.foldl jsSetAdd []

/-- Assign key `k` in an association list with JavaScript object-spread
semantics: an existing key keeps its position and is overwritten, a new key
is appended. -/
def setKv (kvs : List (String × Json)) (k : String) (v : Json) : List (String × Json) :=
  if kvs.any (fun p => p.1 == k) then
    kvs.map (fun p => if p.1 == k then (p.1, v) else p)
  else
    kvs ++ [(k, v)]

/-- The index properties `"0", "1", ...` that JavaScript spread enumerates
from an array. -/
def enumFields (xs : List Json) : List (String × Json) :=
  xs.enum.map (fun p => (toString p.1, p.2))

/-- The index properties `"0", "1", ...` that JavaScript spread enumerates
from a string: one single-character string per position.  (Positions are
modelled per code point; the examples and reachable data are ASCII, where
this agrees with UTF-16 code units.) -/
def strFields (s : String) : List (String × Json) :=
  s.data.enum.map (fun p => (toString p.1, .str (String.mk [p.2])))

/-- The own enumerable properties `{ ...base }` contributes: an object's
fields, a string's or array's index properties, and nothing for the
primitives `null`/`undefined`/booleans/numbers. -/
def spreadFields (base : Json) : List (String × Json) :=
  match base with
  | .obj kvs => kvs
  | .str s => strFields s
  | .arr xs => enumFields xs
  | _ => []

/-- The object `{ ...base, [k]: v }`: the base's own enumerable properties in
order, then the computed key written last (overwriting in place if present). -/
def objSpreadSet (base : Json) (k : String) (v : Json) : Json :=
  .obj (setKv (spreadFields base) k v)

/-- Whether a value is a JSON object literal. -/
def isObj : Json → Bool
  | .obj _ => true
  | _ => false

/-- The string a JavaScript computed property key `[couponId]` coerces an
integer to. -/
def intKey (i : ℤ) : String := toString i

/-- The outcome of reading one localStorage key: a string that JSON-parses to
a value, or a string on which JSON.parse throws. -/
inductive StoredStr where
  | json : Json → StoredStr
  | corrupt : StoredStr

/-- The persistent store, restricted to the keys the embedded logic touches:
`redeemedCoupons`, `redeemedDates` (JSON-encoded) and `advent-auth` (a plain
string).  `none` means the key is absent. -/
structure Store where
  redeemedCoupons : Option StoredStr
  redeemedDates : Option StoredStr
  adventAuth : Option String

/-- The page component's in-memory ledger state: the `redeemedCoupons`
`Set<number>` (runtime values may be arbitrary parsed JSON) and the
`redeemedDates` record (default `{}`). -/
structure AppState where
  redeemedCoupons : List Json
  redeemedDates : Json

/-- In-memory state plus the persistent store. -/
structure Sys where
  mem : AppState
  store : Store

/-- `isRedeemed`: membership of the coupon id in the redeemed `Set`. -/
def isRedeemed (m : AppState) (couponId : ℤ) : Bool :=
  m.redeemedCoupons.any (fun x => sameValueZero x (.num (couponId : ℚ)))

/-- `initializeData` (the hydration effect): read `redeemedCoupons`, parse it,
adopt it when it is an array; then read `redeemedDates`, parse it and adopt it
unconditionally.  A parse failure aborts the rest of the routine (caught by the
surrounding try/catch) and the defaults — empty set, empty record — remain.
An absent first key does not abort, so the dates are still loaded. -/
def initializeData (store : Store) : AppState :=
  let loadDates : AppState → AppState := fun st =>
    match store.redeemedDates with
    | none => st
    | some .corrupt => st
    | some (.json d) => { st with redeemedDates := d }
  match store.redeemedCoupons with
  | none => loadDates { redeemedCoupons := [], redeemedDates := .obj [] }
  | some .corrupt => { redeemedCoupons := [], redeemedDates := .obj [] }
  | some (.json j) =>
    if isArray j then
      loadDates { redeemedCoupons := jsSetFromList (asArray j), redeemedDates := .obj [] }
    else
      loadDates { redeemedCoupons := [], redeemedDates := .obj [] }

/-- `saveRedeemedDate`: `{ ...redeemedDates, [couponId]: now }`, overwriting
any stored timestamp for that id. -/
def saveRedeemedDate (dates : Json) (couponId : ℤ) (now : String) : Json :=
  objSpreadSet dates (intKey couponId) (.str now)

/-- `handleRedeem`: add the id to the redeemed set, persist the set, then
unconditionally call `saveRedeemedDate` (persisting the dates record). -/
def handleRedeem (sys : Sys) (couponId : ℤ) (now : String) : Sys :=
  let newRedeemed := jsSetAdd sys.mem.redeemedCoupons (.num (couponId : ℚ))
  let newDates := saveRedeemedDate sys.mem.redeemedDates couponId now
  { mem := { redeemedCoupons := newRedeemed, redeemedDates := newDates },
    store := { sys.store with
                redeemedCoupons := some (.json (.arr newRedeemed)),
                redeemedDates := some (.json newDates) } }

/-- `resetData` (confirmed branch): `storage.removeItem(STORAGE_KEY)` where
`STORAGE_KEY = 'redeemedCoupons'`.  No other key is touched. -/
def resetData (store : Store) : Store :=
  { store with redeemedCoupons := none }

/-- `validateBackupData`: truthy object, `redeemedCoupons` an array whose
every element has `typeof === 'number'`, `exportDate` of `typeof 'string'`. -/
def validateBackupData (data : Json) : Bool :=
  if ¬ truthy data then false
  else if typeOf data != "object" then false
  else if ¬ isArray (getField data "redeemedCoupons") then false
  else if ¬ (asArray (getField data "redeemedCoupons")).all
              (fun id => typeOf id == "number") then false
  else if typeOf (getField data "exportDate") != "string" then false
  else true

/-- `exportData`: read the stored `redeemedCoupons` string; absence or a
parse failure aborts with an error toast (`none`); otherwise wrap the parsed
value in the backup document together with the export-time timestamp and the
codec version.  (Blob download mechanics are outside the model.) -/
def exportData (store : Store) (now : String) : Option Json :=
  match store.redeemedCoupons with
  | none => none
  | some .corrupt => none
  | some (.json parsed) =>
    some (.obj [("redeemedCoupons", parsed),
                ("exportDate", .str now),
                ("version", .str "1.0.0")])

/-- `handleFileSelect`, from the point where the file content has been read
and JSON-parsed into `payload`: validate, and on success overwrite the stored
`redeemedCoupons` with the payload's array.  On validation failure nothing is
written.  (File-extension, file-size and read-error rejections all abort
before this point and leave the store untouched; the non-fatal version warning
does not affect the outcome.)  Returns the success flag and the new store. -/
def handleFileSelect (store : Store) (payload : Json) : Bool × Store :=
  if validateBackupData payload then
    (true, { store with redeemedCoupons := some (.json (getField payload "redeemedCoupons")) })
  else
    (false, store)

/-- `String.prototype.trim` on the field contents (leading and trailing
whitespace removed). -/
def jsTrim (s : String) : String :=
  String.mk (((s.data.dropWhile Char.isWhitespace).reverse.dropWhile Char.isWhitespace).reverse)

/-- The fill prefix `padStart` builds: the pad characters repeated and
truncated to the required length. -/
def padFill (pad : List Char) (n : Nat) : List Char :=
  ((List.replicate n pad).flatten).take n

/-- `String.prototype.padStart(target, pad)`. -/
def jsPadStart (s : String) (target : Nat) (pad : String) : String :=
  if target ≤ s.data.length then s
  else String.mk (padFill pad.data (target - s.data.length) ++ s.data)

/-- `handleSubmit` of the auth modal: trim and pad the three inputs — day and
month with the fill string "0", the year with the fill string "23" — then
compare against the hardcoded triple ("03", "02", "23").  Returns whether
`onAuthenticate(true)` is reached.  (The emptiness guard mirrors the source;
no non-matching path calls `onAuthenticate` at all.) -/
def handleSubmit (day month year : String) : Bool :=
  let d := jsPadStart (jsTrim day) 2 "0"
  let m := jsPadStart (jsTrim month) 2 "0"
  let y := jsPadStart (jsTrim year) 2 "23"
  if d == "" || m == "" || y == "" then false
  else d == "03" && m == "02" && y == "23"

/-- `handleAuthenticate`: on success persist `advent-auth = "true"`; otherwise
only an error toast is shown and nothing is persisted. -/
def handleAuthenticate (store : Store) (success : Bool) : Store :=
  if success then { store with adventAuth := some "true" } else store

/-- One full authentication attempt: submit the three fields, then run the
page's `handleAuthenticate` callback on the outcome. -/
def submitAuth (store : Store) (day month year : String) : Store :=
  handleAuthenticate store (handleSubmit day month year)

/-- `Math.round` on the rationals the stats computation produces
(round half toward positive infinity). -/
def jsRound (q : ℚ) : ℤ := ⌊q + 1 / 2⌋

/-- Coupon categories. -/
inductive CouponCategory where
  | romantic | relaxation | adventure | home | creative | surprise
deriving DecidableEq

/-- A catalog entry.  The purely presentational `color`, `difficulty`, `tags`
and `redeemInstructions` attributes are not consumed by any embedded
operation and are omitted. -/
structure Coupon where
  id : ℤ
  day : ℤ
  title : String
  description : String
  validUntil : String
  emoji : String
  category : CouponCategory

/-- The static 24-entry coupon catalog. -/
def coupons : List Coupon :=
  [ { id := 1, day := 1, title := "Profesjonalny Masaż",
      description := "Pełny masaż ciała (oczywiście wykonany przezemnie) (15 min)",
      validUntil := "31.01.2026", emoji := "💆‍♀️", category := .relaxation },
    { id := 2, day := 2, title := "Kolacja przy Świecach",
      description := "Romantyczna kolacja oczywiście w domu",
      validUntil := "14.02.2026", emoji := "🕯️", category := .romantic },
    { id := 3, day := 3, title := "Kino Domowe Premium",
      description := "Film do wyboru + popcorn, nachos i Twoje ulubione słodycze",
      validUntil := "31.01.2026", emoji := "🎬", category := .home },
    { id := 4, day := 4, title := "Śniadanie Marzeń",
      description := "Śniadanie do łóżka z wszystkim czego zapragniesz",
      validUntil := "15.02.2026", emoji := "🥐", category := .romantic },
    { id := 5, day := 5, title := "Nocny Spacer pod Gwiazdami",
      description := "Romantyczny spacer",
      validUntil := "28.02.2026", emoji := "✨", category := .romantic },
    { id := 6, day := 6, title := "Shopping Spree",
      description := "Wspólne zakupy + bon prezentowy 200 zł",
      validUntil := "31.03.2026", emoji := "🛍️", category := .surprise },
    { id := 7, day := 7, title := "Dzień Królowej",
      description := "Robię WSZYSTKIE rzeczy co tylko mi powiesz i sobie zażyczysz",
      validUntil := "31.01.2026", emoji := "👑", category := .home },
    { id := 8, day := 8, title := "Czas dla Siebie",
      description := "4 godziny tylko dla Ciebie - zero pytań, zero przeszkadzania",
      validUntil := "28.02.2026", emoji := "🎨", category := .relaxation },
    { id := 9, day := 9, title := "Wieczór Gier",
      description := "Planszówki, gry karciane lub gry video - Ty wybierasz!",
      validUntil := "31.01.2026", emoji := "🎮", category := .home },
    { id := 10, day := 10, title := "Domowe SPA Day",
      description := "Kąpiel z bombami, maseczki, paznokcie, relaks total oczywiście do zrealizowania gdy będziemy razem mieszkać",
      validUntil := "31.01.2030", emoji := "🛁", category := .relaxation },
    { id := 11, day := 11, title := "Wycieczka Niespodzianka",
      description := "Jednodniowa wycieczka w tajemnicze miejsce (tylko dla Ciebie!)",
      validUntil := "30.04.2026", emoji := "🚗", category := .adventure },
    { id := 12, day := 12, title := "Twoja Osobista Playlista",
      description := "Stworzona specjalnie dla Ciebie playlista z 50 utworami",
      validUntil := "31.12.2026", emoji := "🎵", category := .creative },
    { id := 13, day := 13, title := "Masaż Stóp",
      description := "Relaksujący masaż stóp",
      validUntil := "28.02.2026", emoji := "👣", category := .relaxation },
    { id := 14, day := 14, title := "Sesja Zdjęciowa",
      description := "Profesjonalna sesja zdjęciowa w miejscu do wyboru + obróbka",
      validUntil := "31.05.2026", emoji := "📸", category := .creative },
    { id := 15, day := 15, title := "Maraton Serialowy",
      description := "Cały dzień oglądania Twojego ulubionego serialu + pizza",
      validUntil := "31.01.2026", emoji := "🍿", category := .home },
    { id := 16, day := 16, title := "Ciasto od Podstaw",
      description := "Upiekę Twoje ulubione ciasto według Twojej ulubionej receptury (JAK SIĘ NAUCZĘ PIEC)",
      validUntil := "31.01.2028", emoji := "🎂", category := .home },
    { id := 17, day := 17, title := "Nieograniczony Poranek",
      description := "Śpij ile chcesz - zero budzenia, zero obowiązków",
      validUntil := "28.02.2026", emoji := "😴", category := .relaxation },
    { id := 18, day := 18, title := "Piknik Romantyczny",
      description := "Piknik w parku z koszem pełnym przysmaków (gdy będzie cieplej)",
      validUntil := "30.07.2026", emoji := "🧺", category := .romantic },
    { id := 19, day := 19, title := "Kupon na \"nieograniczone przytulanie\"",
      description := "Cały wieczór poświęcony tylko na przytulanie – bez limitu czasu, bez przerwy na telefon czy obowiązki. Koc, poduszki, ciepła herbata i my dwoje wtuleni w siebie. Idealny na zimny wieczór, kiedy chcesz czuć bliskość i bezpieczeństwo w moich ramionach. Trzymam Cię tak długo, jak zechcesz... ♾️❤️",
      validUntil := "28.02.2026", emoji := "💕", category := .creative },
    { id := 20, day := 20, title := "List Miłosny",
      description := "Odręcznie napisany list opisujący dlaczego Cię kocham",
      validUntil := "14.02.2026", emoji := "💌", category := .romantic },
    { id := 21, day := 21, title := "Nagrane voice message playlist",
      description := "10 krótkich nagrań z komplementami (do słuchania kiedy chce).",
      validUntil := "28.02.2026", emoji := "🔊", category := .romantic },
    { id := 22, day := 22, title := "Kolacja w Restauracji",
      description := "Romantyczna kolacja w restauracji",
      validUntil := "31.03.2026", emoji := "🍽️", category := .surprise },
    { id := 23, day := 23, title := "Dzień Tylko dla Ciebie",
      description := "Cały dzień poświęcony Tobie - robimy to co Ty chcesz",
      validUntil := "28.02.2026", emoji := "💝", category := .romantic },
    { id := 24, day := 24, title := "🎁 NIESPODZIANKA FINAŁOWA 🎁",
      description := "Specjalny prezent który zmieni wszystko... Szczegóły 24 grudnia!",
      validUntil := "31.12.2026", emoji := "🎁", category := .surprise } ]

/-- `getRedeemedCoupons`: catalog entries whose id occurs in the redeemed-id
list (`Array.includes`, SameValueZero). -/
def getRedeemedCoupons (redeemedIds : List Json) : List Coupon :=
  coupons.filter (fun c => jsIncludes redeemedIds (.num (c.id : ℚ)))

/-- The record `getCouponStats` returns. -/
structure CouponStats where
  total : ℤ
  redeemed : ℤ
  remaining : ℤ
  percentage : ℤ
  categoryCounts : CouponCategory → ℤ
  redeemedByCategory : CouponCategory → ℤ

/-- `getCouponStats`: totals, remaining, the rounded percentage
`Math.round((redeemed / total) * 100)`, and the per-category counts over the
catalog and over the redeemed subset. -/
def getCouponStats (redeemedIds : List Json) : CouponStats :=
  let total : ℤ := coupons.length
  let redeemed : ℤ := redeemedIds.length
  { total := total
    redeemed := redeemed
    remaining := total - redeemed
    percentage := jsRound (((redeemed : ℚ) / (total : ℚ)) * 100)
    categoryCounts := fun cat => ((coupons.filter (fun c => c.category = cat)).length : ℤ)
    redeemedByCategory := fun cat =>
      (((getRedeemedCoupons redeemedIds).filter (fun c => c.category = cat)).length : ℤ) }

/-- The per-door states of the unlock/redeem machine. -/
inductive DoorStatus where
  | locked | unlocked | redeemed
deriving DecidableEq

/-- The Door component's status derivation (its `statusText` branch order):
the lock check comes first, the redemption check second. -/
def doorStatus (isUnlocked isRedeemed : Bool) : DoorStatus :=
  if ¬ isUnlocked then .locked
  else if isRedeemed then .redeemed
  else .unlocked

/-- The Door renders its lock overlay exactly when the door is not unlocked,
irrespective of redemption. -/
def lockOverlayShown (isUnlocked : Bool) : Bool := ¬ isUnlocked

/-- The Door renders its redeemed badge exactly when the coupon is redeemed. -/
def redeemedBadgeShown (isRedeemed : Bool) : Bool := isRedeemed

/-- The page's `isUnlocked`: December (month index 11) and the current
day-of-month at or past the door's day. -/
def isUnlockedClock (month currentDay day : ℤ) : Bool :=
  month == 11 && currentDay ≥ day

/-- The coupon-modal QR payload (`couponData`): built from the catalog entry
and `new Date().toISOString()` at generation time.  The persisted
`redeemedDates` record is not an input. -/
def couponData (c : Coupon) (now : String) : Json :=
  .obj [("id", .num (c.id : ℚ)),
        ("title", .str c.title),
        ("description", .str c.description),
        ("validUntil", .str c.validUntil),
        ("emoji", .str c.emoji),
        ("redeemedAt", .str now)]

/-- The category label string embedded in QR payloads. -/
def categoryStr : CouponCategory → String
  | .romantic => "romantic"
  | .relaxation => "relaxation"
  | .adventure => "adventure"
  | .home => "home"
  | .creative => "creative"
  | .surprise => "surprise"

/-- The standalone QR view payload (`qrData`): again stamped with the
generation-time clock, never the persisted redemption timestamp. -/
def qrData (c : Coupon) (now : String) : Json :=
  .obj [("id", .num (c.id : ℚ)),
        ("title", .str c.title),
        ("description", .str c.description),
        ("category", .str (categoryStr c.category)),
        ("validUntil", .str c.validUntil),
        ("redeemedAt", .str now),
        ("version", .str "1.0")]

/-- The profile view's `redeemedCoupons` derivation: every redeemed catalog
entry paired with `redeemedDate: new Date().toISOString()` — the current
clock, identical for all entries, not the stored per-coupon timestamp. -/
def profileRedeemedCoupons (redeemedIds : List Json) (now : String) : List (Coupon × String) :=
  (getRedeemedCoupons redeemedIds).map (fun c => (c, now))

/-- Modelled from the spec: the import validation the specification describes,
requiring `redeemedCoupons` to hold values of integer type (not merely
JavaScript numbers) and a string `exportDate`.  Kept for comparison with
`validateBackupData`. -/
def specValidateBackupData (data : Json) : Bool :=
  match data with
  | .obj _ =>
    isArray (getField data "redeemedCoupons")
      && (asArray (getField data "redeemedCoupons")).all
           (fun id => match id with
                      | .num q => q.den == 1
                      | _ => false)
      && typeOf (getField data "exportDate") == "string"
  | _ => false

/-- Modelled from the spec: the session gate the specification describes,
comparing all three zero-padded components against the fixed triple.  Kept
for comparison with `handleSubmit`, which pads the year with "23" instead. -/
def specAuthenticate (day month year : String) : Bool :=
  jsPadStart (jsTrim day) 2 "0" == "03"
    && jsPadStart (jsTrim month) 2 "0" == "02"
    && jsPadStart (jsTrim year) 2 "0" == "23"

/-- The keys of the persisted `redeemedDates` record, when it parses to an
object. -/
def storeDatesKeys (s : Store) : List String :=
  match s.redeemedDates with
  | some (.json (.obj kvs)) => kvs.map Prod.fst
  | _ => []

/-- The elements of the persisted `redeemedCoupons` array, when it parses to
an array. -/
def storeRedeemedElems (s : Store) : List Json :=
  match s.redeemedCoupons with
  | some (.json (.arr xs)) => xs
  | _ => []

/-- Whether a redeemed-array element witnesses a dates-record key: an integer
number whose computed-property string equals the key. -/
def matchesKey (j : Json) (k : String) : Bool :=
  match j with
  | .num q => q.den == 1 && intKey q.num == k
  | _ => false

/-- The ledger invariant at the store level: every key of the persisted
`redeemedDates` record is witnessed by an integer in the persisted
`redeemedCoupons` array. -/
def storeInv (s : Store) : Bool :=
  (storeDatesKeys s).all (fun k => (storeRedeemedElems s).any (fun j => matchesKey j k))

/-- The same invariant on the in-memory state. -/
def memDatesKeys (m : AppState) : List String :=
  match m.redeemedDates with
  | .obj kvs => kvs.map Prod.fst
  | _ => []

/-- In-memory ledger invariant: every `redeemedDates` key is witnessed by an
integer member of the redeemed set. -/
def memInv (m : AppState) : Bool :=
  (memDatesKeys m).all (fun k => m.redeemedCoupons.any (fun j => matchesKey j k))

/-- The non-integer JavaScript number 1.5 (= 3/2), written in normal form so
its numerator and denominator are kernel-computable. -/
def nonIntegerId : ℚ := ⟨3, 2, by decide, by decide⟩

/-- Whether the stored `redeemedCoupons` value parses to an array. -/
def storedRedeemedIsArray (store : Store) : Bool :=
  match store.redeemedCoupons with
  | some (.json j) => isArray j
  | _ => false

lemma jsSetAdd_any_self (l : List Json) (q : ℚ) :
    (jsSetAdd l (.num q)).any (fun x => sameValueZero x (.num q)) = true := by
  unfold jsSetAdd
  by_cases h : l.any (fun x => sameValueZero x (.num q))
  · rw [if_pos h]
    exact h
  · rw [if_neg h]
    simp [List.any_append, sameValueZero]

lemma jsSetAdd_idem (l : List Json) (q : ℚ) :
    jsSetAdd (jsSetAdd l (.num q)) (.num q) = jsSetAdd l (.num q) := by
  have h := jsSetAdd_any_self l q
  conv_lhs => rw [jsSetAdd]
  simp [h]

lemma any_jsSetAdd_mono (l : List Json) (v : Json) (p : Json → Bool) (h : l.any p = true) :
    (jsSetAdd l v).any p = true := by
  unfold jsSetAdd
  split
  · exact h
  · simp [List.any_append, h]

lemma find?_setKv_pos (kvs : List (String × Json)) (k : String) (v : Json)
    (h : kvs.any (fun p => p.1 == k) = true) :
    ∃ k0, (kvs.map (fun p => if p.1 == k then (p.1, v) else p)).find?
            (fun p => p.1 == k) = some (k0, v) := by
  induction kvs with
  | nil => simp at h
  | cons hd tl ih =>
    by_cases hk : (hd.1 == k) = true
    · refine ⟨hd.1, ?_⟩
      rw [List.map_cons, if_pos hk]
      exact List.find?_cons_of_pos _ hk
    · have h' : tl.any (fun p => p.1 == k) = true := by
        rw [List.any_cons] at h
        rcases Bool.or_eq_true_iff.mp h with h1 | h1
        · exact absurd h1 hk
        · exact h1
      obtain ⟨k0, hk0⟩ := ih h'
      refine ⟨k0, ?_⟩
      rw [List.map_cons, if_neg hk]
      exact (@List.find?_cons_of_neg _ (fun p => p.1 == k) hd _ hk).trans hk0

lemma find?_append_new (kvs : List (String × Json)) (k : String) (v : Json)
    (h : kvs.any (fun p => p.1 == k) = false) :
    (kvs ++ [(k, v)]).find? (fun p => p.1 == k) = some (k, v) := by
  induction kvs with
  | nil => simp
  | cons hd tl ih =>
    rw [List.any_cons, Bool.or_eq_false_iff] at h
    have hneg : ¬ (hd.1 == k) = true := by simp [h.1]
    rw [List.cons_append]
    exact (@List.find?_cons_of_neg _ (fun p => p.1 == k) hd _ hneg).trans (ih h.2)

lemma getField_setKv_self (kvs : List (String × Json)) (k : String) (v : Json) :
    getField (.obj (setKv kvs k v)) k = v := by
  simp only [setKv]
  by_cases h : kvs.any (fun p => p.1 == k) = true
  · rw [if_pos h]
    obtain ⟨k0, hk0⟩ := find?_setKv_pos kvs k v h
    simp only [getField, hk0]
  · rw [if_neg h]
    simp only [getField, find?_append_new kvs k v (Bool.not_eq_true _ ▸ h)]

lemma getField_objSpreadSet_self (d : Json) (k : String) (v : Json) :
    getField (objSpreadSet d k v) k = v :=
  getField_setKv_self (spreadFields d) k v

lemma map_fst_setKv (kvs : List (String × Json)) (k : String) (v : Json) :
    (setKv kvs k v).map Prod.fst =
      if kvs.any (fun p => p.1 == k) then kvs.map Prod.fst
      else kvs.map Prod.fst ++ [k] := by
  unfold setKv
  split
  · rw [List.map_map]
    congr 1
    funext p
    by_cases h : p.1 = k <;> simp [h]
  · simp

lemma matchesKey_intCast (i : ℤ) : matchesKey (.num (i : ℚ)) (intKey i) = true := by
  simp [matchesKey, Rat.den_intCast, Rat.num_intCast]

lemma any_matchesKey_jsSetAdd (l : List Json) (i : ℤ) :
    (jsSetAdd l (.num (i : ℚ))).any (fun j => matchesKey j (intKey i)) = true := by
  unfold jsSetAdd
  by_cases h : l.any (fun x => sameValueZero x (.num (i : ℚ)))
  · rw [if_pos h]
    rw [List.any_eq_true] at h ⊢
    obtain ⟨x, hx, hsvz⟩ := h
    refine ⟨x, hx, ?_⟩
    cases x <;> simp [sameValueZero] at hsvz
    subst hsvz
    exact matchesKey_intCast i
  · rw [if_neg h]
    simp [List.any_append, matchesKey_intCast i]

lemma nonIntegerId_eq : nonIntegerId = 3 / 2 := by
  conv_lhs => rw [← Rat.num_div_den nonIntegerId]
  norm_num [nonIntegerId]

lemma nonIntegerId_ne_one : nonIntegerId ≠ 1 := by
  intro h
  have hd := congrArg Rat.den h
  rw [show nonIntegerId.den = 2 from rfl, show (1 : ℚ).den = 1 from rfl] at hd
  exact absurd hd (by decide)

lemma setKv_keys_all_witnessed (kvs : List (String × Json)) (l : List Json) (i : ℤ) (v : Json)
    (h : (kvs.map Prod.fst).all (fun k => l.any (fun j => matchesKey j k)) = true) :
    ((setKv kvs (intKey i) v).map Prod.fst).all
      (fun k => (jsSetAdd l (.num (i : ℚ))).any (fun j => matchesKey j k)) = true := by
  rw [map_fst_setKv]
  rw [List.all_eq_true] at h
  split
  · rw [List.all_eq_true]
    intro k hk
    exact any_jsSetAdd_mono _ _ _ (h k hk)
  · rw [List.all_append, Bool.and_eq_true]
    constructor
    · rw [List.all_eq_true]
      intro k hk
      exact any_jsSetAdd_mono _ _ _ (h k hk)
    · simpa using any_matchesKey_jsSetAdd l i

lemma length_padFill (p : List Char) (n : Nat) :
    (padFill p n).length = min n (n * p.length) := by
  simp [padFill, List.length_take, List.length_flatten, List.map_replicate,
        List.sum_replicate, smul_eq_mul]

lemma jsPadStart_ne_empty (s pad : String) (h : pad.data ≠ []) :
    jsPadStart s 2 pad ≠ "" := by
  unfold jsPadStart
  split
  · rename_i hle
    intro he
    rw [he] at hle
    exact absurd hle (by decide)
  · rename_i hle
    intro he
    have hd : padFill pad.data (2 - s.data.length) ++ s.data = [] :=
      congrArg String.data he
    have h1 := congrArg List.length hd
    rw [List.length_append, length_padFill] at h1
    have hn : 1 ≤ 2 - s.data.length := by omega
    have hp : 0 < pad.data.length := List.length_pos.mpr h
    have hmul : 1 ≤ (2 - s.data.length) * pad.data.length :=
      Nat.one_le_iff_ne_zero.mpr (Nat.mul_ne_zero (by omega) (by omega))
    simp only [List.length_nil] at h1
    omega

lemma jsPadStart_two_23 (s : String) :
    jsPadStart s 2 "23" = "23" ↔ (s = "" ∨ s = "3" ∨ s = "23") := by
  rcases hs : s.data with _ | ⟨c, _ | ⟨c2, rest⟩⟩
  · have hse : s = "" := String.ext (hs.trans rfl)
    rw [hse]
    decide
  · have h1 : ¬ 2 ≤ s.data.length := by rw [hs]; simp
    rw [jsPadStart, if_neg h1, hs]
    have h2 : padFill ("23").data (2 - ([c]).length) ++ [c] = ['2', c] := rfl
    rw [h2]
    simp only [String.ext_iff, hs]
    constructor
    · intro hc
      have : c = '3' := by
        have := hc
        simp only [show ("23" : String).data = ['2', '3'] from rfl] at this
        simpa using this
      simp [this]
    · rintro (hE | h3 | h23)
      · exact absurd hE (by simp)
      · have : c = '3' := by simpa using h3
        rw [this]
      · exact absurd h23 (by simp)
  · have h1 : 2 ≤ s.data.length := by rw [hs]; simp
    rw [jsPadStart, if_pos h1]
    simp only [String.ext_iff, hs]
    constructor
    · intro hc
      simp only [show ("23" : String).data = ['2', '3'] from rfl] at hc
      simp [hc]
    · rintro (hE | h3 | h23)
      · exact absurd hE (by simp)
      · exact absurd h3 (by simp)
      · exact h23

/-- C1 (counterexample): redemption is not idempotent on the timestamp.  From
the empty system, redeeming coupon 1 at time "A" stores "A"; a second redeem
call at time "B" overwrites the stored timestamp with "B", so the second call
does not yield the same redeemedAt value as a single call. -/
theorem redeem_twice_overwrites_timestamp :
    isRedeemed (handleRedeem (handleRedeem ⟨⟨[], .obj []⟩, ⟨none, none, none⟩⟩ 1 "A") 1 "B").mem 1
      = true
    ∧ getField (handleRedeem ⟨⟨[], .obj []⟩, ⟨none, none, none⟩⟩ 1 "A").mem.redeemedDates
        (intKey 1) = .str "A"
    ∧ getField (handleRedeem (handleRedeem ⟨⟨[], .obj []⟩, ⟨none, none, none⟩⟩ 1 "A") 1 "B").mem.redeemedDates
        (intKey 1) = .str "B"
    ∧ Json.str "B" ≠ Json.str "A" := by
  refine ⟨rfl, rfl, rfl, by simp⟩

/-- C1 (amended): redeeming an already-redeemed id leaves `isRedeemed` true
and the redeemed set unchanged, but `saveRedeemedDate` is called
unconditionally, so the stored timestamp for the id becomes that of the
second call. -/
theorem redeem_idempotent_on_set_overwrites_date (sys : Sys) (id : ℤ) (t1 t2 : String) :
    isRedeemed (handleRedeem (handleRedeem sys id t1) id t2).mem id = true
    ∧ (handleRedeem (handleRedeem sys id t1) id t2).mem.redeemedCoupons
        = (handleRedeem sys id t1).mem.redeemedCoupons
    ∧ getField (handleRedeem (handleRedeem sys id t1) id t2).mem.redeemedDates (intKey id)
        = .str t2 := by
  refine ⟨?_, ?_, ?_⟩
  · exact jsSetAdd_any_self _ _
  · exact jsSetAdd_idem _ _
  · exact getField_objSpreadSet_self _ _ _

/-- C2 (counterexample): `resetData` removes only the `redeemedCoupons` key;
the `redeemedDates` key survives the reset, and a subsequent hydration yields
a non-empty `redeemedDates` record. -/
theorem reset_leaves_redeemed_dates :
    (resetData ⟨some (.json (.arr [.num 5])), some (.json (.obj [("5", .str "T")])), none⟩).redeemedDates
      = some (.json (.obj [("5", .str "T")]))
    ∧ (initializeData (resetData ⟨some (.json (.arr [.num 5])), some (.json (.obj [("5", .str "T")])), none⟩)).redeemedDates
      = .obj [("5", .str "T")]
    ∧ Json.obj [("5", .str "T")] ≠ .obj [] := by
  refine ⟨rfl, rfl, by simp⟩

/-- C2 (amended): after `resetData`, hydration yields an empty redeemed set,
`isRedeemed` is false for every id and `stats().redeemed = 0`, and the
`redeemedCoupons` key is removed from the store — but the `redeemedDates` key
is left exactly as it was. -/
theorem reset_clears_redeemed_set_only (store : Store) :
    (initializeData (resetData store)).redeemedCoupons = []
    ∧ (∀ id : ℤ, isRedeemed (initializeData (resetData store)) id = false)
    ∧ (getCouponStats (initializeData (resetData store)).redeemedCoupons).redeemed = 0
    ∧ (resetData store).redeemedCoupons = none
    ∧ (resetData store).redeemedDates = store.redeemedDates := by
  have hred : (initializeData (resetData store)).redeemedCoupons = [] := by
    unfold initializeData resetData
    cases store.redeemedDates with
    | none => rfl
    | some s => cases s with
      | corrupt => rfl
      | json d => rfl
  refine ⟨hred, ?_, ?_, rfl, rfl⟩
  · intro id
    rw [isRedeemed, hred]
    rfl
  · rw [hred]
    decide

/-- C4: for every list of redeemed ids, `redeemed + remaining = total`, the
percentage equals `round(100 * redeemed / total)`, and a zero total would give
percentage zero (the catalog's total is the constant 24, so that clause is
never exercised and the unguarded division never sees zero). -/
theorem getCouponStats_consistent (redeemedIds : List Json) :
    (getCouponStats redeemedIds).redeemed + (getCouponStats redeemedIds).remaining
        = (getCouponStats redeemedIds).total
    ∧ (getCouponStats redeemedIds).percentage
        = jsRound (100 * ((getCouponStats redeemedIds).redeemed : ℚ)
                    / ((getCouponStats redeemedIds).total : ℚ))
    ∧ ((getCouponStats redeemedIds).total = 0 → (getCouponStats redeemedIds).percentage = 0) := by
  refine ⟨?_, ?_, ?_⟩
  · simp [getCouponStats]
  · show jsRound _ = jsRound _
    congr 1
    rw [show (getCouponStats redeemedIds).redeemed = ((redeemedIds.length : ℤ)) from rfl,
        show (getCouponStats redeemedIds).total = ((coupons.length : ℤ)) from rfl]
    push_cast
    ring
  · intro h
    have h24 : (getCouponStats redeemedIds).total = 24 := by
      show ((coupons.length : ℤ)) = 24
      rfl
    rw [h24] at h
    exact absurd h (by decide)

/-- C4 witness: with 12 of the 24 coupons redeemed the identities hold and the
percentage is 50, matching the spec's concrete scenario. -/
theorem getCouponStats_consistent_witness :
    (getCouponStats (List.replicate 12 (Json.num 1))).redeemed
        + (getCouponStats (List.replicate 12 (Json.num 1))).remaining
        = (getCouponStats (List.replicate 12 (Json.num 1))).total
    ∧ (getCouponStats (List.replicate 12 (Json.num 1))).percentage = 50 := by
  refine ⟨(getCouponStats_consistent (List.replicate 12 (Json.num 1))).1, ?_⟩
  show jsRound _ = 50
  rw [jsRound, Int.floor_eq_iff]
  rw [show (List.replicate 12 (Json.num 1)).length = 12 from rfl,
      show coupons.length = 24 from rfl]
  norm_num

/-- C7 (counterexample): a redeemed door whose day the clock reports locked
(January 1st, door day 5) is presented as Locked, not Redeemed — the Door's
status derivation tests the lock before the redemption. -/
theorem redeemed_door_shows_locked_when_clock_locks :
    doorStatus (isUnlockedClock 0 1 5) true = DoorStatus.locked
    ∧ DoorStatus.locked ≠ DoorStatus.redeemed := by
  refine ⟨rfl, by simp⟩

/-- C7 (amended): the Door's status is Redeemed exactly when the door is both
unlocked and redeemed; whenever the clock reports the door locked the lock
overlay is shown — even for a redeemed coupon — while the redeemed badge still
tracks redemption alone. -/
theorem doorStatus_redeemed_iff_unlocked_and_redeemed (u r : Bool) :
    (doorStatus u r = DoorStatus.redeemed ↔ (u && r) = true)
    ∧ lockOverlayShown u = !u
    ∧ redeemedBadgeShown r = r := by
  refine ⟨?_, ?_, rfl⟩
  · cases u <;> cases r <;> simp [doorStatus]
  · cases u <;> rfl

/-- C9 (counterexample): a persisted array of non-numeric values is not
treated as malformed — hydration loads the strings "a", "b" into the
in-memory redeemed set, which is therefore not empty. -/
theorem hydrate_accepts_non_numeric_array :
    (initializeData ⟨some (.json (.arr [.str "a", .str "b"])), none, none⟩).redeemedCoupons
      = [.str "a", .str "b"]
    ∧ ([Json.str "a", Json.str "b"] : List Json) ≠ [] := by
  refine ⟨rfl, by simp⟩

/-- C9 (amended): hydration is total, and whenever the stored redeemed value
is missing, fails to parse, or parses to a non-array, the in-memory redeemed
set is initialized empty; array contents are not type-checked. -/
theorem hydrate_empty_when_not_array (store : Store)
    (h : storedRedeemedIsArray store = false) :
    (initializeData store).redeemedCoupons = [] := by
  unfold initializeData
  cases hrc : store.redeemedCoupons with
  | none =>
    cases store.redeemedDates with
    | none => rfl
    | some s => cases s with
      | corrupt => rfl
      | json d => rfl
  | some s =>
    cases s with
    | corrupt => rfl
    | json j =>
      have hj : isArray j = false := by
        rw [storedRedeemedIsArray, hrc] at h
        exact h
      simp only [hj, Bool.false_eq_true, if_false]
      cases store.redeemedDates with
      | none => rfl
      | some s2 => cases s2 with
        | corrupt => rfl
        | json d => rfl

/-- C9 witness: a stored value parsing to the number 5 (not an array) hydrates
to the empty redeemed set. -/
theorem hydrate_empty_when_not_array_witness :
    storedRedeemedIsArray ⟨some (.json (.num 5)), none, none⟩ = false
    ∧ (initializeData ⟨some (.json (.num 5)), none, none⟩).redeemedCoupons = [] :=
  ⟨rfl, hydrate_empty_when_not_array ⟨some (.json (.num 5)), none, none⟩ rfl⟩

/-- C3 (counterexample): the `redeemedAt ⊆ redeemed` invariant is not
preserved by reset.  A store satisfying the invariant (coupon 5 redeemed and
timestamped) violates it after `resetData`, which drops the redeemed array
while keeping the timestamp record. -/
theorem reset_breaks_dates_subset_invariant :
    storeInv ⟨some (.json (.arr [.num 5])), some (.json (.obj [("5", .str "T")])), none⟩ = true
    ∧ storeInv (resetData
        ⟨some (.json (.arr [.num 5])), some (.json (.obj [("5", .str "T")])), none⟩) = false := by
  refine ⟨by decide, by decide⟩

/-- Spreading a non-object `redeemedDates` (reachable when the stored dates
value parses to, say, the JSON string "ab") scatters index properties, so
from such a state even redeem breaks the invariant: the keys "0", "1" are not
members of the redeemed set.  This is why the preservation theorem below
assumes the record is an object — the only shape the ledger itself writes. -/
lemma redeem_from_string_dates_breaks_invariant :
    memInv ⟨[], .str "ab"⟩ = true
    ∧ memInv (handleRedeem ⟨⟨[], .str "ab"⟩, ⟨none, none, none⟩⟩ 5 "T").mem = false := by
  refine ⟨rfl, by decide⟩

/-- C3 (amended): the redeem operation preserves the invariant whenever the
in-memory `redeemedDates` record is an object — the only shape `handleRedeem`
and default hydration ever produce; after `handleRedeem`, every timestamped
id (in memory and in the freshly persisted store) is a member of the redeemed
set.  Reset and import, which touch only the redeemed array, do not preserve
it, and from a corrupt non-object record (whose spread scatters index keys)
even redeem does not. -/
theorem redeem_preserves_dates_subset_invariant (sys : Sys) (id : ℤ) (now : String)
    (hobj : isObj sys.mem.redeemedDates = true)
    (h : memInv sys.mem = true) :
    memInv (handleRedeem sys id now).mem = true
    ∧ storeInv (handleRedeem sys id now).store = true := by
  obtain ⟨kvs, hdd⟩ : ∃ kvs, sys.mem.redeemedDates = .obj kvs := by
    cases hdd : sys.mem.redeemedDates <;> rw [hdd] at hobj <;>
      first
        | exact ⟨_, rfl⟩
        | exact absurd hobj (by simp [isObj])
  have h' : (kvs.map Prod.fst).all
      (fun k => sys.mem.redeemedCoupons.any (fun j => matchesKey j k)) = true := by
    simpa [memInv, memDatesKeys, hdd] using h
  have core : memInv (handleRedeem sys id now).mem = true := by
    show memInv ⟨jsSetAdd sys.mem.redeemedCoupons (.num (id : ℚ)),
                 objSpreadSet sys.mem.redeemedDates (intKey id) (.str now)⟩ = true
    rw [hdd]
    exact setKv_keys_all_witnessed kvs sys.mem.redeemedCoupons id (.str now) h'
  have heq : storeInv (handleRedeem sys id now).store
      = memInv (handleRedeem sys id now).mem := rfl
  exact ⟨core, heq.trans core⟩

/-- C3 witness: from the empty in-memory ledger (whose dates record is the
object `{}` and which satisfies the invariant), redeeming coupon 1 yields a
state and a persisted store that both satisfy it. -/
theorem redeem_preserves_dates_subset_invariant_witness :
    isObj (Json.obj []) = true
    ∧ memInv ⟨[], .obj []⟩ = true
    ∧ memInv (handleRedeem ⟨⟨[], .obj []⟩, ⟨none, none, none⟩⟩ 1 "T").mem = true
    ∧ storeInv (handleRedeem ⟨⟨[], .obj []⟩, ⟨none, none, none⟩⟩ 1 "T").store = true :=
  ⟨rfl, by decide,
   (redeem_preserves_dates_subset_invariant ⟨⟨[], .obj []⟩, ⟨none, none, none⟩⟩ 1 "T"
     rfl (by decide)).1,
   (redeem_preserves_dates_subset_invariant ⟨⟨[], .obj []⟩, ⟨none, none, none⟩⟩ 1 "T"
     rfl (by decide)).2⟩

/-- C5 (counterexample): the import validation accepts a payload whose
`redeemedCoupons` holds the non-integer number 1.5 (= 3/2), although the
specified integer-type validation rejects it; the import succeeds and
overwrites the previously persisted redeemed array, so the ledger is not
left unchanged. -/
theorem import_accepts_non_integer_numbers :
    specValidateBackupData (.obj [("redeemedCoupons", .arr [.num nonIntegerId]),
                                  ("exportDate", .str "2025-01-01")]) = false
    ∧ (handleFileSelect ⟨some (.json (.arr [.num 1])), none, none⟩
         (.obj [("redeemedCoupons", .arr [.num nonIntegerId]),
                ("exportDate", .str "2025-01-01")])).1 = true
    ∧ (handleFileSelect ⟨some (.json (.arr [.num 1])), none, none⟩
         (.obj [("redeemedCoupons", .arr [.num nonIntegerId]),
                ("exportDate", .str "2025-01-01")])).2.redeemedCoupons
        = some (.json (.arr [.num nonIntegerId]))
    ∧ some (StoredStr.json (.arr [Json.num nonIntegerId]))
        ≠ some (StoredStr.json (.arr [Json.num 1])) := by
  refine ⟨by decide, rfl, rfl, ?_⟩
  simp [nonIntegerId_ne_one]

/-- C5 (amended): the code validates that the ids are number-typed (not
integer-typed); every payload that fails that validation is rejected and the
store is left completely unchanged (atomic). -/
theorem import_rejects_invalid_atomically (store : Store) (payload : Json)
    (h : validateBackupData payload = false) :
    handleFileSelect store payload = (false, store) := by
  rw [handleFileSelect, if_neg (by simp [h])]

/-- C5 witness: the spec's concrete scenario — a payload whose ids are the
strings "a", "b" fails validation and the prior store survives unchanged. -/
theorem import_rejects_invalid_atomically_witness :
    validateBackupData (.obj [("redeemedCoupons", .arr [.str "a", .str "b"]),
                              ("exportDate", .str "2025-01-01")]) = false
    ∧ handleFileSelect ⟨some (.json (.arr [.num 1])), none, none⟩
        (.obj [("redeemedCoupons", .arr [.str "a", .str "b"]),
               ("exportDate", .str "2025-01-01")])
      = (false, ⟨some (.json (.arr [.num 1])), none, none⟩) :=
  ⟨by decide,
   import_rejects_invalid_atomically ⟨some (.json (.arr [.num 1])), none, none⟩
     (.obj [("redeemedCoupons", .arr [.str "a", .str "b"]),
            ("exportDate", .str "2025-01-01")]) (by decide)⟩

/-- C6 (counterexample): on a fresh store (redeemedCoupons key absent — the
state of a ledger that has never persisted a redemption), export does not
succeed, so the round trip of the claim fails for that ledger state. -/
theorem export_fails_on_fresh_store :
    exportData ⟨none, none, none⟩ "2025-12-24T00:00:00.000Z" = none := rfl

/-- C6 (amended): whenever the redeemed set has been persisted as an array of
numbers (as every redeem or successful import leaves it), export succeeds and
immediately importing the produced document succeeds and returns the store
unchanged — in particular the redeemed set round-trips set-equal. -/
theorem export_import_round_trip (store : Store) (xs : List Json) (t : String)
    (h1 : store.redeemedCoupons = some (.json (.arr xs)))
    (h2 : xs.all (fun j => typeOf j == "number") = true) :
    exportData store t
      = some (.obj [("redeemedCoupons", .arr xs), ("exportDate", .str t),
                    ("version", .str "1.0.0")])
    ∧ handleFileSelect store
        (.obj [("redeemedCoupons", .arr xs), ("exportDate", .str t),
               ("version", .str "1.0.0")])
      = (true, store) := by
  have hv : validateBackupData
      (.obj [("redeemedCoupons", .arr xs), ("exportDate", .str t),
             ("version", .str "1.0.0")]) = true := by
    show (if ¬ (xs.all (fun id => typeOf id == "number") = true) then false else true) = true
    rw [if_neg (by simp [h2])]
  constructor
  · rw [exportData, h1]
  · cases store with
    | mk rc rd aa =>
      simp only at h1
      subst h1
      rw [handleFileSelect, if_pos hv]
      rfl

/-- C6 witness: a store holding the redeemed array [1, 5] exports and
re-imports to exactly itself. -/
theorem export_import_round_trip_witness :
    exportData ⟨some (.json (.arr [.num 1, .num 5])), none, none⟩ "2025-12-24"
      = some (.obj [("redeemedCoupons", .arr [.num 1, .num 5]),
                    ("exportDate", .str "2025-12-24"), ("version", .str "1.0.0")])
    ∧ handleFileSelect ⟨some (.json (.arr [.num 1, .num 5])), none, none⟩
        (.obj [("redeemedCoupons", .arr [.num 1, .num 5]),
               ("exportDate", .str "2025-12-24"), ("version", .str "1.0.0")])
      = (true, ⟨some (.json (.arr [.num 1, .num 5])), none, none⟩) :=
  export_import_round_trip ⟨some (.json (.arr [.num 1, .num 5])), none, none⟩
    [.num 1, .num 5] "2025-12-24" rfl (by decide)

/-- C8 (counterexample): the gate pads the year with the two-character string
"23", so the candidate (day "3", month "2", year "") authenticates and
persists the auth flag although its zero-padded year "00" does not match the
hardcoded triple — the claimed zero-padded comparison rejects it. -/
theorem auth_accepts_empty_year :
    handleSubmit "3" "2" "" = true
    ∧ specAuthenticate "3" "2" "" = false
    ∧ (submitAuth ⟨none, none, none⟩ "3" "2" "").adventAuth = some "true" := by
  refine ⟨by decide, by decide, by decide⟩

/-- C8 (amended): authentication succeeds exactly when the zero-padded day is
"03", the zero-padded month is "02", and the trimmed year is "", "3" or "23"
(the year is padded with the fill string "23", not zero-padded); on success
the auth flag is persisted, on failure the store is untouched. -/
theorem handleSubmit_iff (d m y : String) (store : Store) :
    (handleSubmit d m y = true ↔
      (jsPadStart (jsTrim d) 2 "0" = "03" ∧ jsPadStart (jsTrim m) 2 "0" = "02"
        ∧ (jsTrim y = "" ∨ jsTrim y = "3" ∨ jsTrim y = "23")))
    ∧ (handleSubmit d m y = false → submitAuth store d m y = store)
    ∧ (handleSubmit d m y = true → submitAuth store d m y = { store with adventAuth := some "true" }) := by
  have hd0 : jsPadStart (jsTrim d) 2 "0" ≠ "" := jsPadStart_ne_empty _ _ (by decide)
  have hm0 : jsPadStart (jsTrim m) 2 "0" ≠ "" := jsPadStart_ne_empty _ _ (by decide)
  have hy0 : jsPadStart (jsTrim y) 2 "23" ≠ "" := jsPadStart_ne_empty _ _ (by decide)
  refine ⟨?_, ?_, ?_⟩
  · rw [handleSubmit]
    rw [if_neg (by simp [hd0, hm0, hy0])]
    simp [Bool.and_eq_true, beq_iff_eq, jsPadStart_two_23, and_assoc]
  · intro hf
    rw [submitAuth, handleAuthenticate, hf]
    rfl
  · intro ht
    rw [submitAuth, handleAuthenticate, ht]
    rfl

/-- C8 witness: the exact candidate ("03", "02", "23") authenticates and the
auth flag is persisted. -/
theorem handleSubmit_iff_witness :
    handleSubmit "03" "02" "23" = true
    ∧ submitAuth ⟨none, none, none⟩ "03" "02" "23" = ⟨none, none, some "true"⟩ :=
  ⟨by decide, (handleSubmit_iff "03" "02" "23" ⟨none, none, none⟩).2.2 (by decide)⟩

/-- C10: every scannable-code payload stamps `redeemedAt` (respectively
`redeemedDate` in the profile view) with the clock at generation time — the
builders read the coupon and the current time only, never the persisted
`redeemedDates` record — so two generations at different times produce
different payloads for the same redeemed coupon. -/
theorem qr_payload_uses_generation_time (c : Coupon) (t t1 t2 : String) (ids : List Json) :
    getField (couponData c t) "redeemedAt" = .str t
    ∧ getField (qrData c t) "redeemedAt" = .str t
    ∧ (∀ p ∈ profileRedeemedCoupons ids t, p.2 = t)
    ∧ (t1 ≠ t2 → couponData c t1 ≠ couponData c t2)
    ∧ (t1 ≠ t2 → qrData c t1 ≠ qrData c t2) := by
  refine ⟨rfl, rfl, ?_, ?_, ?_⟩
  · intro p hp
    simp only [profileRedeemedCoupons, List.mem_map] at hp
    obtain ⟨c', _, hpe⟩ := hp
    rw [← hpe]
  · intro hne h
    have h1 : getField (couponData c t1) "redeemedAt"
        = getField (couponData c t2) "redeemedAt" := by rw [h]
    have h2 : Json.str t1 = Json.str t2 := h1
    exact hne (Json.str.inj h2)
  · intro hne h
    have h1 : getField (qrData c t1) "redeemedAt"
        = getField (qrData c t2) "redeemedAt" := by rw [h]
    have h2 : Json.str t1 = Json.str t2 := h1
    exact hne (Json.str.inj h2)

/-- C10 witness: for a concrete coupon, the payload generated at time "A"
carries redeemedAt "A" and differs from the payload generated at time "B". -/
theorem qr_payload_uses_generation_time_witness :
    getField (couponData ⟨1, 1, "t", "d", "v", "e", .romantic⟩ "A") "redeemedAt" = .str "A"
    ∧ couponData ⟨1, 1, "t", "d", "v", "e", .romantic⟩ "A"
        ≠ couponData ⟨1, 1, "t", "d", "v", "e", .romantic⟩ "B" :=
  ⟨(qr_payload_uses_generation_time ⟨1, 1, "t", "d", "v", "e", .romantic⟩ "A" "A" "B" []).1,
   (qr_payload_uses_generation_time ⟨1, 1, "t", "d", "v", "e", .romantic⟩ "A" "A" "B" []).2.2.2.1
     (by decide)⟩

end Calendary
